import Mathlib

/-!
Shallow embedding of the MVG departure-board engine (`src/main.rs`).

Modelling conventions:
* `u64` and `u16` are `Nat`; the range restriction is enforced where the
  source enforces it (at JSON deserialization) and the `as i64` cast is
  modelled explicitly.
* `chrono::DateTime<Local>` is modelled by its underlying instant,
  milliseconds since the Unix epoch, as an `Int`; `chrono` compares
  `DateTime` values by instant, so ordering is preserved.
* `chrono::Duration` is modelled by its signed number of seconds.
* Fallible operations (`unwrap`, serde decoding) return `Option`.
-/

namespace Mvg

/-- `chrono::Duration`: stores a signed number of seconds (the nanosecond
component is always 0 for durations built by this program). -/
structure Duration where
  secs : Int
  deriving DecidableEq, Repr

/-- `Duration::minutes(m)`: a duration of `m` minutes, i.e. `m * 60` seconds. -/
def Duration.minutes (m : Int) : Duration := ⟨m * 60⟩

/-- `Duration::num_minutes`: the whole number of minutes, truncated toward zero. -/
def Duration.num_minutes (d : Duration) : Int := d.secs / 60

/-- The wire record `RawDeparture` as declared in `src/main.rs` (field types:
`u64`/`u16` become `Nat`, `bool` becomes `Bool`, `String` stays `String`,
`Vec<String>` becomes `List String`). -/
structure RawDeparture where
  planned_departure_time_ms : Nat
  is_real_time : Bool
  delay_minutes : Nat
  real_departure_time_ms : Nat
  transport_type : String
  vehicle_label : String
  diva_id : String
  network : String
  train_type : String
  destination : String
  cancelled : Bool
  sev : Bool
  platform : Nat
  messages : List String
  banner_hash : String
  occupancy : String
  stop_point_global_id : String
  deriving DecidableEq, Repr

/-- The canonical `Departure` record from `src/main.rs`. `DateTime<Local>`
values are represented by their instant in milliseconds since the epoch. -/
structure Departure where
  actual_time : Int
  planned_time : Int
  delay : Option Duration
  destination : String
  cancelled : Bool
  vehicle_label : String
  deriving DecidableEq, Repr

/-- `Departure::displayed_time`: the planned time when cancelled, otherwise
the actual (realtime) time. -/
def Departure.displayed_time (d : Departure) : Int :=
  if d.cancelled then d.planned_time else d.actual_time

/-- Rust's `u64 as i64` primitive cast (two's-complement reinterpretation). -/
def u64ToI64 (n : Nat) : Int :=
  if n < 2 ^ 63 then (n : Int) else (n : Int) - 2 ^ 64

/-- Smallest millisecond timestamp accepted by `chrono`'s
`timestamp_millis_opt` (the instant of `NaiveDate::MIN` at midnight). -/
def chronoTimestampMillisMin : Int := -8334601228800000

/-- Largest millisecond timestamp accepted by `chrono`'s
`timestamp_millis_opt` (the last representable instant of `NaiveDate::MAX`). -/
def chronoTimestampMillisMax : Int := 8210266876799999

/-- `Local.timestamp_millis_opt(ms)` followed by the conversion to
`DateTime<Local>`: for any in-range instant the local representation exists
and is unique (`LocalResult::Single`), out-of-range instants yield `None`.
The resulting `DateTime<Local>` is represented by its instant `ms`. -/
def timestampMillisOpt (ms : Int) : Option Int :=
  if chronoTimestampMillisMin ≤ ms ∧ ms ≤ chronoTimestampMillisMax then some ms else none

/-- `impl From<RawDeparture> for Departure` from `src/main.rs`, with the two
`unwrap`s made explicit: `none` models a panic of the conversion. -/
def Departure.ofRaw (value : RawDeparture) : Option Departure := do
  let actual_time ← timestampMillisOpt (u64ToI64 value.real_departure_time_ms)
  let planned_time ← timestampMillisOpt (u64ToI64 value.planned_departure_time_ms)
  let delay := if value.is_real_time then some (Duration.minutes value.delay_minutes) else none
  some { actual_time, planned_time, delay,
         destination := value.destination,
         cancelled := value.cancelled,
         vehicle_label := value.vehicle_label }

/-- JSON values, as far as this program's wire format needs them
(the upstream payload only carries integer numbers). -/
inductive Json where
  | null : Json
  | bool (b : Bool) : Json
  | num (n : Int) : Json
  | str (s : String) : Json
  | arr (elems : List Json) : Json
  | obj (fields : List (String × Json)) : Json

/-- serde field access on a JSON object: the value bound to the first
occurrence of `name`. -/
def getField (fields : List (String × Json)) (name : String) : Option Json :=
  fields.lookup name

/-- serde deserialization of `bool`. -/
def decodeBool : Json → Option Bool
  | .bool b => some b
  | _ => none

/-- serde deserialization of `String`. -/
def decodeString : Json → Option String
  | .str s => some s
  | _ => none

/-- serde deserialization of `u64`: an integer in `0..=2^64-1`. -/
def decodeU64 : Json → Option Nat
  | .num n => if 0 ≤ n ∧ n ≤ 18446744073709551615 then some n.toNat else none
  | _ => none

/-- serde deserialization of `u16`: an integer in `0..=65535`. -/
def decodeU16 : Json → Option Nat
  | .num n => if 0 ≤ n ∧ n ≤ 65535 then some n.toNat else none
  | _ => none

/-- serde deserialization of `Vec<String>`. -/
def decodeVecString : Json → Option (List String)
  | .arr elems => elems.mapM decodeString
  | _ => none

/-- serde deserialization of a field marked `#[serde(default)]`: an absent
field takes the default value, a present field must decode. -/
def decodeFieldWithDefault {α : Type} (fields : List (String × Json)) (name : String)
    (dec : Json → Option α) (dflt : α) : Option α :=
  match getField fields name with
  | none => some dflt
  | some v => dec v

/-- Sequencing of fallible decoding steps (`Option.bind`, spelled out so the
long chain in `decodeRawDeparture` stays tractable). -/
def obind {α β : Type} (x : Option α) (f : α → Option β) : Option β :=
  match x with
  | none => none
  | some a => f a

/-- The serialized names of the declared `RawDeparture` fields: the explicit
`#[serde(rename)]` names plus the `rename_all = "camelCase"` forms. -/
def rawDepartureFieldNames : List String :=
  ["plannedDepartureTime", "realtime", "delayInMinutes", "realtimeDepartureTime",
   "transportType", "label", "divaId", "network", "trainType", "destination",
   "cancelled", "sev", "platform", "messages", "bannerHash", "occupancy",
   "stopPointGlobalId"]

/-- The serde-derived `Deserialize` impl for `RawDeparture`: every declared
field except `delayInMinutes` is required (its absence or a value of the
wrong shape is a decode failure); `delayInMinutes` defaults to `0` when
absent (`#[serde(default)]`); keys not among the declared names are ignored
(there is no `deny_unknown_fields`). -/
def decodeRawDeparture : Json → Option RawDeparture
  | .obj fields =>
    obind (obind (getField fields "plannedDepartureTime") decodeU64) (fun planned_departure_time_ms =>
    obind (obind (getField fields "realtime") decodeBool) (fun is_real_time =>
    obind (decodeFieldWithDefault fields "delayInMinutes" decodeU16 0) (fun delay_minutes =>
    obind (obind (getField fields "realtimeDepartureTime") decodeU64) (fun real_departure_time_ms =>
    obind (obind (getField fields "transportType") decodeString) (fun transport_type =>
    obind (obind (getField fields "label") decodeString) (fun vehicle_label =>
    obind (obind (getField fields "divaId") decodeString) (fun diva_id =>
    obind (obind (getField fields "network") decodeString) (fun network =>
    obind (obind (getField fields "trainType") decodeString) (fun train_type =>
    obind (obind (getField fields "destination") decodeString) (fun destination =>
    obind (obind (getField fields "cancelled") decodeBool) (fun cancelled =>
    obind (obind (getField fields "sev") decodeBool) (fun sev =>
    obind (obind (getField fields "platform") decodeU16) (fun platform =>
    obind (obind (getField fields "messages") decodeVecString) (fun messages =>
    obind (obind (getField fields "bannerHash") decodeString) (fun banner_hash =>
    obind (obind (getField fields "occupancy") decodeString) (fun occupancy =>
    obind (obind (getField fields "stopPointGlobalId") decodeString) (fun stop_point_global_id =>
    some { planned_departure_time_ms, is_real_time, delay_minutes,
           real_departure_time_ms, transport_type, vehicle_label, diva_id,
           network, train_type, destination, cancelled, sev, platform,
           messages, banner_hash, occupancy, stop_point_global_id })))))))))))))))))
  | _ => none

/-- `.json::<Vec<RawDeparture>>()`: the body must be a JSON array and every
element must decode as a `RawDeparture`. -/
def decodeVecRawDeparture : Json → Option (List RawDeparture)
  | .arr elems => elems.mapM decodeRawDeparture
  | _ => none

/-- The comparison key of the sort in `get_response`:
`dep1.displayed_time().cmp(dep2.displayed_time())`, i.e. ordering by
displayed time. -/
def depLe (a b : Departure) : Prop :=
  a.displayed_time ≤ b.displayed_time

instance : DecidableRel depLe := fun a b =>
  inferInstanceAs (Decidable (a.displayed_time ≤ b.displayed_time))

instance : IsTotal Departure depLe := ⟨fun _ _ => Int.le_total _ _⟩

instance : IsTrans Departure depLe := ⟨fun _ _ _ => Int.le_trans⟩

/-- `itertools::sorted_by` with the displayed-time comparator: a stable sort
by displayed time (`sorted_by` collects into a `Vec` and runs the standard
stable `sort_by`; insertion sort realizes the same stable-sort function). -/
def sortDepartures (l : List Departure) : List Departure :=
  l.insertionSort depLe

/-- The `FetchError` surfaced by `get_response` (`Box<dyn Error>` in the
source): either the request failed (a `reqwest` transport error carrying its
cause) or the body did not decode as `Vec<RawDeparture>`. -/
inductive FetchError where
  | transport (cause : String) : FetchError
  | decode : FetchError
  deriving DecidableEq, Repr

/-- The outcome of the network interaction that `get_response` performs: the
request either fails with a transport-error cause or yields a JSON body. -/
def NetOutcome := Except String Json

/-- `get_response`, as a function of the network outcome: propagates a
transport failure, decodes the body as `Vec<RawDeparture>`, converts each
record (`none` models an `unwrap` panic inside the conversion) and returns
the departures sorted by displayed time. -/
def get_response (net : NetOutcome) : Option (Except FetchError (List Departure)) :=
  match net with
  | .error cause => some (.error (.transport cause))
  | .ok body =>
    match decodeVecRawDeparture body with
    | none => some (.error .decode)
    | some raws =>
      match raws.mapM Departure.ofRaw with
      | none => none
      | some deps => some (.ok (sortDepartures deps))

/-- The observable phases of the refresh coroutine in `app`: parked before
`is_fetching.set(true)` (`idle`), suspended in `get_response().await`
(`fetching`), suspended in the five-second `tokio::time::sleep` after
publishing (`sleeping`). -/
inductive Phase where
  | idle : Phase
  | fetching : Phase
  | sleeping : Phase
  deriving DecidableEq, Repr

/-- The shared state written by the refresh coroutine: the `is_fetching` and
`current_response` hooks of `app`, plus the coroutine's own phase. -/
structure AppState where
  phase : Phase
  is_fetching : Bool
  current_response : Option (Except FetchError (List Departure))

/-- The state of `app` before the refresh coroutine's first iteration:
`use_state(cx, || false)` and `use_state(cx, || None)`. -/
def initState : AppState :=
  { phase := .idle, is_fetching := false, current_response := none }

/-- One step of the refresh coroutine, from one suspension point to the
next, following the loop body
`is_fetching.set(true); current_response.set(Some(get_response().await));
is_fetching.set(false); sleep(5s)`:
* `start`: from `idle`, set the in-flight flag and begin the fetch;
* `finish`: the awaited fetch resolves with outcome `r`; publish it as the
  latest result, clear the in-flight flag, and enter the sleep;
* `wake`: the five-second sleep elapses; loop back to the top. -/
inductive Step : AppState → AppState → Prop where
  | start (s : AppState) : s.phase = .idle →
      Step s { s with phase := .fetching, is_fetching := true }
  | finish (s : AppState) (r : Except FetchError (List Departure)) :
      s.phase = .fetching →
      Step s { phase := .sleeping, is_fetching := false, current_response := some r }
  | wake (s : AppState) : s.phase = .sleeping →
      Step s { s with phase := .idle }

/-- States the refresh coroutine can reach from `app`'s initial state. -/
inductive Reachable : AppState → Prop where
  | init : Reachable initState
  | step {s s' : AppState} : Reachable s → Step s s' → Reachable s'

/-! ## Helper lemmas about the conversion -/

theorem ofRaw_eq_some (raw : RawDeparture) (a p : Int)
    (ha : timestampMillisOpt (u64ToI64 raw.real_departure_time_ms) = some a)
    (hp : timestampMillisOpt (u64ToI64 raw.planned_departure_time_ms) = some p) :
    Departure.ofRaw raw = some
      { actual_time := a, planned_time := p,
        delay := if raw.is_real_time then some (Duration.minutes raw.delay_minutes) else none,
        destination := raw.destination, cancelled := raw.cancelled,
        vehicle_label := raw.vehicle_label } := by
  simp [Departure.ofRaw, ha, hp]

theorem ofRaw_inv {raw : RawDeparture} {dep : Departure}
    (h : Departure.ofRaw raw = some dep) :
    timestampMillisOpt (u64ToI64 raw.real_departure_time_ms) = some dep.actual_time ∧
    timestampMillisOpt (u64ToI64 raw.planned_departure_time_ms) = some dep.planned_time ∧
    dep.delay = (if raw.is_real_time then some (Duration.minutes raw.delay_minutes) else none) ∧
    dep.destination = raw.destination ∧
    dep.cancelled = raw.cancelled ∧
    dep.vehicle_label = raw.vehicle_label := by
  cases ha : timestampMillisOpt (u64ToI64 raw.real_departure_time_ms) with
  | none =>
    unfold Departure.ofRaw at h
    rw [ha] at h
    simp at h
  | some a =>
    cases hp : timestampMillisOpt (u64ToI64 raw.planned_departure_time_ms) with
    | none =>
      unfold Departure.ofRaw at h
      rw [ha, hp] at h
      simp at h
    | some p =>
      have heq := ofRaw_eq_some raw a p ha hp
      rw [h] at heq
      obtain rfl := Option.some.inj heq
      exact ⟨rfl, rfl, rfl, rfl, rfl, rfl⟩

/-! ## Claim theorems: conversion -/

/-- C1: for every `RawDeparture` converted to a `Departure`, `delay` is
`Some(delayInMinutes minutes)` when `realtime` is true (including
`Some(0 minutes)` when `delayInMinutes` is 0), and `None` when `realtime` is
false, regardless of the raw `delayInMinutes` value. -/
theorem c1_delay_realtime_gating (raw : RawDeparture) (dep : Departure)
    (h : Departure.ofRaw raw = some dep) :
    (raw.is_real_time = true → dep.delay = some (Duration.minutes raw.delay_minutes)) ∧
    (raw.is_real_time = false → dep.delay = none) := by
  obtain ⟨-, -, hd, -, -, -⟩ := ofRaw_inv h
  constructor <;> intro hr <;> simp [hd, hr]

/-- Example raw record for the C1 witness: `realtime = false`,
`delayInMinutes = 7` (the spec's own example). -/
def rawRealtimeFalse7 : RawDeparture :=
  { planned_departure_time_ms := 1000, is_real_time := false,
    delay_minutes := 7, real_departure_time_ms := 2000,
    transport_type := "SBAHN", vehicle_label := "S1", diva_id := "d",
    network := "mvv", train_type := "t", destination := "Ostbahnhof",
    cancelled := false, sev := false, platform := 1, messages := [],
    banner_hash := "", occupancy := "LOW", stop_point_global_id := "g" }

/-- The departure `rawRealtimeFalse7` converts to. -/
def depRealtimeFalse7 : Departure :=
  { actual_time := 2000, planned_time := 1000, delay := none,
    destination := "Ostbahnhof", cancelled := false, vehicle_label := "S1" }

/-- C1 witness: the spec's example `{realtime: false, delayInMinutes: 7}`
converts with `delay = None`. -/
theorem c1_delay_realtime_gating_witness :
    Departure.ofRaw rawRealtimeFalse7 = some depRealtimeFalse7 ∧
    depRealtimeFalse7.delay = none :=
  ⟨by decide, (c1_delay_realtime_gating rawRealtimeFalse7 depRealtimeFalse7 (by decide)).2 rfl⟩

/-- C2: `displayed_time()` equals `planned_time` when `cancelled` is true
and `actual_time` when `cancelled` is false. -/
theorem c2_displayed_time_selection (d : Departure) :
    (d.cancelled = true → d.displayed_time = d.planned_time) ∧
    (d.cancelled = false → d.displayed_time = d.actual_time) := by
  constructor <;> intro h <;> simp [Departure.displayed_time, h]

/-- C2 witness: a cancelled departure with distinct planned time 1 and
realtime time 2 displays 1; the same record un-cancelled displays 2. -/
theorem c2_displayed_time_selection_witness :
    ({ actual_time := 2, planned_time := 1, delay := none, destination := "X",
       cancelled := true, vehicle_label := "S1" } : Departure).displayed_time = 1 ∧
    ({ actual_time := 2, planned_time := 1, delay := none, destination := "X",
       cancelled := false, vehicle_label := "S1" } : Departure).displayed_time = 2 :=
  ⟨(c2_displayed_time_selection _).1 rfl, (c2_displayed_time_selection _).2 rfl⟩

/-- C6: for raw records whose timestamps are non-negative and representable
as milliseconds since the epoch (within `chrono`'s range), the conversion
does not fail and yields the corresponding instants; in particular
`plannedDepartureTime = 0` converts to the Unix epoch. -/
theorem c6_conversion_total_in_range (raw : RawDeparture)
    (hp : (raw.planned_departure_time_ms : Int) ≤ chronoTimestampMillisMax)
    (hr : (raw.real_departure_time_ms : Int) ≤ chronoTimestampMillisMax) :
    ∃ dep, Departure.ofRaw raw = some dep ∧
      dep.planned_time = raw.planned_departure_time_ms ∧
      dep.actual_time = raw.real_departure_time_ms := by
  have cast_id : ∀ n : Nat, (n : Int) ≤ chronoTimestampMillisMax → u64ToI64 n = n := by
    intro n hn
    unfold u64ToI64
    rw [if_pos]
    unfold chronoTimestampMillisMax at hn
    omega
  have valid : ∀ n : Nat, (n : Int) ≤ chronoTimestampMillisMax →
      timestampMillisOpt (u64ToI64 n) = some (n : Int) := by
    intro n hn
    have hmin : chronoTimestampMillisMin ≤ (n : Int) := by
      unfold chronoTimestampMillisMin
      omega
    rw [cast_id n hn]
    unfold timestampMillisOpt
    rw [if_pos ⟨hmin, hn⟩]
  exact ⟨_, ofRaw_eq_some raw _ _ (valid _ hr) (valid _ hp), rfl, rfl⟩

/-- Example raw record for the C6 witness: both timestamps are 0 (the Unix
epoch). -/
def rawEpoch : RawDeparture :=
  { planned_departure_time_ms := 0, is_real_time := true,
    delay_minutes := 0, real_departure_time_ms := 0,
    transport_type := "SBAHN", vehicle_label := "S1", diva_id := "d",
    network := "mvv", train_type := "t", destination := "Ostbahnhof",
    cancelled := false, sev := false, platform := 1, messages := [],
    banner_hash := "", occupancy := "LOW", stop_point_global_id := "g" }

/-- C6 witness: `plannedDepartureTime = 0` (with realtime timestamp 0 too)
converts without failure to the instant of the Unix epoch. -/
theorem c6_conversion_total_in_range_witness :
    ∃ dep, Departure.ofRaw rawEpoch = some dep ∧
      dep.planned_time = rawEpoch.planned_departure_time_ms ∧
      dep.actual_time = rawEpoch.real_departure_time_ms :=
  c6_conversion_total_in_range rawEpoch (by decide) (by decide)

/-- C9: the conversion depends only on the seven consumed fields: two raw
records agreeing on `plannedDepartureTime`, `realtimeDepartureTime`,
`realtime`, `delayInMinutes`, `destination`, `cancelled` and `label`
convert to equal results, whatever the remaining fields hold. -/
theorem c9_conversion_consumes_seven_fields (r1 r2 : RawDeparture)
    (h1 : r1.planned_departure_time_ms = r2.planned_departure_time_ms)
    (h2 : r1.real_departure_time_ms = r2.real_departure_time_ms)
    (h3 : r1.is_real_time = r2.is_real_time)
    (h4 : r1.delay_minutes = r2.delay_minutes)
    (h5 : r1.destination = r2.destination)
    (h6 : r1.cancelled = r2.cancelled)
    (h7 : r1.vehicle_label = r2.vehicle_label) :
    Departure.ofRaw r1 = Departure.ofRaw r2 := by
  unfold Departure.ofRaw
  rw [h1, h2, h3, h4, h5, h6, h7]

/-- C9 witness: two concrete records agreeing on the seven consumed fields
but differing in `transportType`, `platform`, `occupancy`, `messages`,
`divaId`, `network`, `trainType`, `bannerHash`, `stopPointGlobalId` and
`sev` convert identically. -/
theorem c9_conversion_consumes_seven_fields_witness :
    Departure.ofRaw
      { planned_departure_time_ms := 1000, is_real_time := true,
        delay_minutes := 3, real_departure_time_ms := 2000,
        transport_type := "SBAHN", vehicle_label := "S1", diva_id := "d1",
        network := "mvv", train_type := "t1", destination := "Ostbahnhof",
        cancelled := false, sev := false, platform := 1, messages := [],
        banner_hash := "b1", occupancy := "LOW", stop_point_global_id := "g1" } =
    Departure.ofRaw
      { planned_departure_time_ms := 1000, is_real_time := true,
        delay_minutes := 3, real_departure_time_ms := 2000,
        transport_type := "BUS", vehicle_label := "S1", diva_id := "d2",
        network := "xyz", train_type := "t2", destination := "Ostbahnhof",
        cancelled := false, sev := true, platform := 9, messages := ["m"],
        banner_hash := "b2", occupancy := "HIGH", stop_point_global_id := "g2" } :=
  c9_conversion_consumes_seven_fields _ _ rfl rfl rfl rfl rfl rfl rfl

/-! ## Helper lemmas about the sort -/

theorem filter_key_orderedInsert (k : Int) (a : Departure) (l : List Departure) :
    (List.orderedInsert depLe a l).filter (fun d => d.displayed_time = k) =
    ((a :: l).filter (fun d => d.displayed_time = k)) := by
  induction l with
  | nil => rfl
  | cons b t ih =>
    rw [List.orderedInsert]
    by_cases hab : depLe a b
    · rw [if_pos hab]
    · rw [if_neg hab]
      by_cases hbk : b.displayed_time = k
      · have hak : ¬ a.displayed_time = k := fun hak => by
          unfold depLe at hab
          rw [hak, hbk] at hab
          exact hab le_rfl
        simp [List.filter_cons, hak, hbk, ih]
      · simp [List.filter_cons, hbk, ih]

theorem filter_key_insertionSort (k : Int) (l : List Departure) :
    (List.insertionSort depLe l).filter (fun d => d.displayed_time = k) =
    l.filter (fun d => d.displayed_time = k) := by
  induction l with
  | nil => rfl
  | cons b t ih =>
    rw [List.insertionSort, filter_key_orderedInsert, List.filter_cons, List.filter_cons, ih]

/-! ## Claim theorems: pipeline ordering and empty response -/

/-- C3: on a successfully decoded body whose records all convert, the fetch
pipeline returns the converted departures sorted ascending by displayed
time, and the sort is stable: for every displayed time `k`, the departures
with displayed time `k` appear in the output in their input order. -/
theorem c3_sorted_stable (body : Json) (raws : List RawDeparture)
    (deps : List Departure)
    (hdec : decodeVecRawDeparture body = some raws)
    (hconv : raws.mapM Departure.ofRaw = some deps) :
    get_response (.ok body) = some (.ok (sortDepartures deps)) ∧
    (sortDepartures deps).Sorted depLe ∧
    (sortDepartures deps).Perm deps ∧
    ∀ k : Int, (sortDepartures deps).filter (fun d => d.displayed_time = k) =
      deps.filter (fun d => d.displayed_time = k) := by
  refine ⟨?_, ?_, ?_, ?_⟩
  · simp only [get_response, hdec, hconv]
  · exact List.sorted_insertionSort depLe deps
  · exact List.perm_insertionSort depLe deps
  · intro k
    exact filter_key_insertionSort k deps

/-- A full raw-departure JSON object with the given timestamps and label,
used to build concrete witness payloads. -/
def mkRecordJson (planned real : Int) (lbl : String) : Json :=
  Json.obj
    [("plannedDepartureTime", Json.num planned), ("realtime", Json.bool true),
     ("delayInMinutes", Json.num 0), ("realtimeDepartureTime", Json.num real),
     ("transportType", Json.str "SBAHN"), ("label", Json.str lbl),
     ("divaId", Json.str "d"), ("network", Json.str "mvv"),
     ("trainType", Json.str "t"), ("destination", Json.str "Ostbahnhof"),
     ("cancelled", Json.bool false), ("sev", Json.bool false),
     ("platform", Json.num 1), ("messages", Json.arr []),
     ("bannerHash", Json.str ""), ("occupancy", Json.str "LOW"),
     ("stopPointGlobalId", Json.str "g")]

/-- The spec's sort example: three records with displayed times
`[10:05, 10:02, 10:05]` (as epoch milliseconds `[605000, 602000, 605000]`). -/
def exampleBodyTies : Json :=
  Json.arr [mkRecordJson 605000 605000 "A", mkRecordJson 602000 602000 "B",
            mkRecordJson 605000 605000 "C"]

/-- The raw records `exampleBodyTies` decodes to. -/
def exampleRawsTies : List RawDeparture :=
  [{ planned_departure_time_ms := 605000, is_real_time := true,
     delay_minutes := 0, real_departure_time_ms := 605000,
     transport_type := "SBAHN", vehicle_label := "A", diva_id := "d",
     network := "mvv", train_type := "t", destination := "Ostbahnhof",
     cancelled := false, sev := false, platform := 1, messages := [],
     banner_hash := "", occupancy := "LOW", stop_point_global_id := "g" },
   { planned_departure_time_ms := 602000, is_real_time := true,
     delay_minutes := 0, real_departure_time_ms := 602000,
     transport_type := "SBAHN", vehicle_label := "B", diva_id := "d",
     network := "mvv", train_type := "t", destination := "Ostbahnhof",
     cancelled := false, sev := false, platform := 1, messages := [],
     banner_hash := "", occupancy := "LOW", stop_point_global_id := "g" },
   { planned_departure_time_ms := 605000, is_real_time := true,
     delay_minutes := 0, real_departure_time_ms := 605000,
     transport_type := "SBAHN", vehicle_label := "C", diva_id := "d",
     network := "mvv", train_type := "t", destination := "Ostbahnhof",
     cancelled := false, sev := false, platform := 1, messages := [],
     banner_hash := "", occupancy := "LOW", stop_point_global_id := "g" }]

/-- The departures `exampleRawsTies` converts to. -/
def exampleDepsTies : List Departure :=
  [{ actual_time := 605000, planned_time := 605000,
     delay := some (Duration.minutes 0), destination := "Ostbahnhof",
     cancelled := false, vehicle_label := "A" },
   { actual_time := 602000, planned_time := 602000,
     delay := some (Duration.minutes 0), destination := "Ostbahnhof",
     cancelled := false, vehicle_label := "B" },
   { actual_time := 605000, planned_time := 605000,
     delay := some (Duration.minutes 0), destination := "Ostbahnhof",
     cancelled := false, vehicle_label := "C" }]

/-- C3 witness: the spec's `[10:05, 10:02, 10:05]` payload satisfies the
sortedness and stability conclusion. -/
theorem c3_sorted_stable_witness :
    get_response (.ok exampleBodyTies) = some (.ok (sortDepartures exampleDepsTies)) ∧
    (sortDepartures exampleDepsTies).Sorted depLe ∧
    (sortDepartures exampleDepsTies).Perm exampleDepsTies ∧
    ∀ k : Int, (sortDepartures exampleDepsTies).filter (fun d => d.displayed_time = k) =
      exampleDepsTies.filter (fun d => d.displayed_time = k) :=
  c3_sorted_stable exampleBodyTies exampleRawsTies exampleDepsTies (by decide) (by decide)

/-- C8: a response body of `[]` decodes successfully and the pipeline
returns `Ok` with the empty list, not an error. -/
theorem c8_empty_array_ok :
    decodeVecRawDeparture (Json.arr []) = some [] ∧
    get_response (.ok (Json.arr [])) = some (.ok []) :=
  ⟨rfl, rfl⟩

/-! ## Claim theorems: error propagation and the refresh loop -/

/-- C5: a transport failure or an undecodable body makes `get_response`
return a `FetchError` (carrying the transport cause when there is one); the
refresh loop publishes any cycle outcome — failures included — as the new
latest result, and a step of the loop never clears a previously published
result. -/
theorem c5_failure_published :
    (∀ cause, get_response (.error cause) = some (.error (.transport cause))) ∧
    (∀ body, decodeVecRawDeparture body = none →
      get_response (.ok body) = some (.error .decode)) ∧
    (∀ s : AppState, s.phase = .fetching →
      ∀ r, Step s { phase := .sleeping, is_fetching := false, current_response := some r }) ∧
    (∀ s s' : AppState, Step s s' →
      s.current_response ≠ none → s'.current_response ≠ none) := by
  refine ⟨fun cause => rfl, ?_, ?_, ?_⟩
  · intro body h
    simp only [get_response, h]
  · intro s h r
    exact Step.finish s r h
  · intro s s' hst hprev
    cases hst with
    | start ht => exact hprev
    | finish r ht => simp
    | wake ht => exact hprev

/-- C5 witness: a body that is not a JSON array (here `null`) yields the
decode `FetchError`. -/
theorem c5_failure_published_witness :
    get_response (.ok Json.null) = some (.error .decode) :=
  c5_failure_published.2.1 Json.null rfl

/-- C7: in every reachable state of the refresh loop, the in-flight flag is
true exactly while a fetch is being computed, and a step can enter the
fetching phase only from the idle phase — never from a state whose fetch is
still outstanding, so no fetch overlaps another. -/
theorem c7_no_fetch_overlap :
    (∀ s : AppState, Reachable s → (s.is_fetching = true ↔ s.phase = .fetching)) ∧
    (∀ s s' : AppState, Step s s' → s'.phase = .fetching → s.phase = .idle) := by
  constructor
  · intro s hs
    induction hs with
    | init => simp [initState]
    | step hr hst ih =>
      cases hst with
      | start ht => simp
      | finish r ht => simp
      | wake ht =>
        rw [ht] at ih
        simp only [reduceCtorEq, iff_false] at ih
        simp [ih]
  · intro s s' hst h
    cases hst with
    | start ht => exact ht
    | finish r ht => exact absurd h (by simp)
    | wake ht => exact absurd h (by simp)

/-- C7 witness: the state reached by starting the first fetch from the
initial state has the in-flight flag set. -/
theorem c7_no_fetch_overlap_witness :
    ({ phase := .fetching, is_fetching := true, current_response := none } : AppState).is_fetching
      = true :=
  (c7_no_fetch_overlap.1 _ (Reachable.step Reachable.init (Step.start initState rfl))).mpr rfl

/-! ## Helper lemmas about the decoder -/

theorem decodeU16_le {j : Json} {v : Nat} (h : decodeU16 j = some v) : v ≤ 65535 := by
  cases j with
  | num n =>
    by_cases hn : 0 ≤ n ∧ n ≤ 65535
    · rw [decodeU16, if_pos hn] at h
      obtain rfl := Option.some.inj h
      omega
    · rw [decodeU16, if_neg hn] at h
      exact absurd h (by simp)
  | null => exact absurd h (by simp [decodeU16])
  | bool b => exact absurd h (by simp [decodeU16])
  | str s => exact absurd h (by simp [decodeU16])
  | arr elems => exact absurd h (by simp [decodeU16])
  | obj fields => exact absurd h (by simp [decodeU16])

theorem obind_eq_some_inv {α β : Type} {x : Option α} {f : α → Option β} {b : β}
    (h : obind x f = some b) : ∃ a, x = some a ∧ f a = some b := by
  cases x with
  | none => exact absurd h (by simp [obind])
  | some a => exact ⟨a, rfl, h⟩

/-- The unused declared fields named by the data-model contract: all of them
are required by the decoder (only `delayInMinutes` has a serde default). -/
def unusedRequiredNames : List String :=
  ["transportType", "divaId", "network", "trainType", "sev", "platform",
   "messages", "bannerHash", "occupancy", "stopPointGlobalId"]

theorem decodeRawDeparture_some_inv {fields : List (String × Json)} {raw : RawDeparture}
    (h : decodeRawDeparture (.obj fields) = some raw) :
    decodeFieldWithDefault fields "delayInMinutes" decodeU16 0 = some raw.delay_minutes ∧
    ∀ name ∈ unusedRequiredNames, (getField fields name).isSome = true := by
  simp only [decodeRawDeparture] at h
  obtain ⟨a1, hs1, h⟩ := obind_eq_some_inv h
  obtain ⟨a2, hs2, h⟩ := obind_eq_some_inv h
  obtain ⟨a3, hs3, h⟩ := obind_eq_some_inv h
  obtain ⟨a4, hs4, h⟩ := obind_eq_some_inv h
  obtain ⟨a5, hs5, h⟩ := obind_eq_some_inv h
  obtain ⟨a6, hs6, h⟩ := obind_eq_some_inv h
  obtain ⟨a7, hs7, h⟩ := obind_eq_some_inv h
  obtain ⟨a8, hs8, h⟩ := obind_eq_some_inv h
  obtain ⟨a9, hs9, h⟩ := obind_eq_some_inv h
  obtain ⟨a10, hs10, h⟩ := obind_eq_some_inv h
  obtain ⟨a11, hs11, h⟩ := obind_eq_some_inv h
  obtain ⟨a12, hs12, h⟩ := obind_eq_some_inv h
  obtain ⟨a13, hs13, h⟩ := obind_eq_some_inv h
  obtain ⟨a14, hs14, h⟩ := obind_eq_some_inv h
  obtain ⟨a15, hs15, h⟩ := obind_eq_some_inv h
  obtain ⟨a16, hs16, h⟩ := obind_eq_some_inv h
  obtain ⟨a17, hs17, h⟩ := obind_eq_some_inv h
  obtain rfl := Option.some.inj h
  refine ⟨hs3, ?_⟩
  intro name hmem
  simp only [unusedRequiredNames, List.mem_cons, List.not_mem_nil, or_false] at hmem
  rcases hmem with rfl | rfl | rfl | rfl | rfl | rfl | rfl | rfl | rfl | rfl
  · obtain ⟨g, hg, -⟩ := obind_eq_some_inv hs5
    rw [hg]; rfl
  · obtain ⟨g, hg, -⟩ := obind_eq_some_inv hs7
    rw [hg]; rfl
  · obtain ⟨g, hg, -⟩ := obind_eq_some_inv hs8
    rw [hg]; rfl
  · obtain ⟨g, hg, -⟩ := obind_eq_some_inv hs9
    rw [hg]; rfl
  · obtain ⟨g, hg, -⟩ := obind_eq_some_inv hs12
    rw [hg]; rfl
  · obtain ⟨g, hg, -⟩ := obind_eq_some_inv hs13
    rw [hg]; rfl
  · obtain ⟨g, hg, -⟩ := obind_eq_some_inv hs14
    rw [hg]; rfl
  · obtain ⟨g, hg, -⟩ := obind_eq_some_inv hs15
    rw [hg]; rfl
  · obtain ⟨g, hg, -⟩ := obind_eq_some_inv hs16
    rw [hg]; rfl
  · obtain ⟨g, hg, -⟩ := obind_eq_some_inv hs17
    rw [hg]; rfl

theorem decodeRawDeparture_delay_minutes_le {j : Json} {raw : RawDeparture}
    (h : decodeRawDeparture j = some raw) : raw.delay_minutes ≤ 65535 := by
  cases j with
  | obj fields =>
    obtain ⟨hdel, -⟩ := decodeRawDeparture_some_inv h
    unfold decodeFieldWithDefault at hdel
    cases hg : getField fields "delayInMinutes" with
    | none =>
      rw [hg] at hdel
      obtain hz := Option.some.inj hdel
      omega
    | some v =>
      rw [hg] at hdel
      exact decodeU16_le hdel
  | null => exact absurd h (by simp [decodeRawDeparture])
  | bool b => exact absurd h (by simp [decodeRawDeparture])
  | num n => exact absurd h (by simp [decodeRawDeparture])
  | str s => exact absurd h (by simp [decodeRawDeparture])
  | arr elems => exact absurd h (by simp [decodeRawDeparture])

theorem decodeRawDeparture_missing_required (fields : List (String × Json))
    (name : String) (hmem : name ∈ unusedRequiredNames)
    (hnone : getField fields name = none) :
    decodeRawDeparture (.obj fields) = none := by
  cases hdec : decodeRawDeparture (.obj fields) with
  | none => rfl
  | some raw =>
    obtain ⟨-, hreq⟩ := decodeRawDeparture_some_inv hdec
    have := hreq name hmem
    rw [hnone] at this
    exact absurd this (by simp)

theorem getField_cons_ne (k : String) (v : Json) (fields : List (String × Json))
    (name : String) (h : name ≠ k) :
    getField ((k, v) :: fields) name = getField fields name := by
  have hbeq : (name == k) = false := beq_eq_false_iff_ne.mpr h
  simp [getField, List.lookup, hbeq]

theorem decodeRawDeparture_congr (f1 f2 : List (String × Json))
    (h : ∀ name ∈ rawDepartureFieldNames, getField f1 name = getField f2 name) :
    decodeRawDeparture (.obj f1) = decodeRawDeparture (.obj f2) := by
  have h1 := h "plannedDepartureTime" (by simp [rawDepartureFieldNames])
  have h2 := h "realtime" (by simp [rawDepartureFieldNames])
  have h3 := h "delayInMinutes" (by simp [rawDepartureFieldNames])
  have h4 := h "realtimeDepartureTime" (by simp [rawDepartureFieldNames])
  have h5 := h "transportType" (by simp [rawDepartureFieldNames])
  have h6 := h "label" (by simp [rawDepartureFieldNames])
  have h7 := h "divaId" (by simp [rawDepartureFieldNames])
  have h8 := h "network" (by simp [rawDepartureFieldNames])
  have h9 := h "trainType" (by simp [rawDepartureFieldNames])
  have h10 := h "destination" (by simp [rawDepartureFieldNames])
  have h11 := h "cancelled" (by simp [rawDepartureFieldNames])
  have h12 := h "sev" (by simp [rawDepartureFieldNames])
  have h13 := h "platform" (by simp [rawDepartureFieldNames])
  have h14 := h "messages" (by simp [rawDepartureFieldNames])
  have h15 := h "bannerHash" (by simp [rawDepartureFieldNames])
  have h16 := h "occupancy" (by simp [rawDepartureFieldNames])
  have h17 := h "stopPointGlobalId" (by simp [rawDepartureFieldNames])
  have h3' : decodeFieldWithDefault f1 "delayInMinutes" decodeU16 0 =
      decodeFieldWithDefault f2 "delayInMinutes" decodeU16 0 := by
    unfold decodeFieldWithDefault
    rw [h3]
  simp only [decodeRawDeparture]
  rw [h1, h2, h3', h4, h5, h6, h7, h8, h9, h10, h11, h12, h13, h14, h15, h16, h17]

/-! ## Claim theorems: decoder field discipline -/

/-- C10: deserialization only accepts `delayInMinutes` values in
`0..=65535` (`u16`); hence every decoded record's delay-minutes value is at
most 65535, and every `Departure` built from a decoded record whose delay
is present carries a non-negative whole number of minutes at most 65535. -/
theorem c10_delay_minutes_range :
    (∀ n : Int, (n < 0 ∨ 65535 < n) → decodeU16 (Json.num n) = none) ∧
    (∀ (j : Json) (raw : RawDeparture), decodeRawDeparture j = some raw →
      raw.delay_minutes ≤ 65535) ∧
    (∀ (j : Json) (raw : RawDeparture) (dep : Departure) (d : Duration),
      decodeRawDeparture j = some raw → Departure.ofRaw raw = some dep →
      dep.delay = some d → ∃ m : Nat, m ≤ 65535 ∧ d = Duration.minutes m) := by
  refine ⟨?_, ?_, ?_⟩
  · intro n hn
    simp only [decodeU16]
    rw [if_neg]
    rintro ⟨h0, h1⟩
    omega
  · intro j raw h
    exact decodeRawDeparture_delay_minutes_le h
  · intro j raw dep d hdec hconv hdel
    obtain ⟨-, -, hd, -, -, -⟩ := ofRaw_inv hconv
    rw [hdel] at hd
    cases hrt : raw.is_real_time with
    | false => rw [hrt] at hd; simp at hd
    | true =>
      rw [hrt] at hd
      simp only [if_pos] at hd
      exact ⟨raw.delay_minutes, decodeRawDeparture_delay_minutes_le hdec,
        Option.some.inj hd⟩

/-- C10 witness: `-1` and `65536` are both rejected by the `u16` decoder. -/
theorem c10_delay_minutes_range_witness :
    decodeU16 (Json.num (-1)) = none ∧ decodeU16 (Json.num 65536) = none :=
  ⟨c10_delay_minutes_range.1 (-1) (Or.inl (by decide)),
   c10_delay_minutes_range.1 65536 (Or.inr (by decide))⟩

/-- C4 counterexample: a JSON object supplying exactly the seven fields the
conversion consumes (`plannedDepartureTime`, `realtime`, `delayInMinutes`,
`realtimeDepartureTime`, `destination`, `cancelled`, `label`) fails to
decode, because the unused declared fields (`transportType` etc.) are
required — contradicting the claim that decoding succeeds when the unused
fields are missing. -/
theorem c4_used_fields_only_fails :
    decodeRawDeparture (Json.obj
      [("plannedDepartureTime", Json.num 0), ("realtime", Json.bool true),
       ("delayInMinutes", Json.num 0), ("realtimeDepartureTime", Json.num 0),
       ("destination", Json.str "Ostbahnhof"), ("cancelled", Json.bool false),
       ("label", Json.str "S1")]) = none := by
  decide

/-- C4 (amended): unrecognized extra fields are ignored rather than
rejected, and `delayInMinutes` may be absent (defaulting to 0), but every
other declared field — including the unused ones (`transportType`,
`divaId`, `network`, `trainType`, `sev`, `platform`, `messages`,
`bannerHash`, `occupancy`, `stopPointGlobalId`) — must be present for
decoding to succeed: its absence is a decode failure. -/
theorem c4_amended_unknown_ignored_required_present :
    (∀ (k : String) (v : Json) (fields : List (String × Json)),
      k ∉ rawDepartureFieldNames →
      decodeRawDeparture (.obj ((k, v) :: fields)) = decodeRawDeparture (.obj fields)) ∧
    (∀ (fields : List (String × Json)) (name : String),
      name ∈ unusedRequiredNames → getField fields name = none →
      decodeRawDeparture (.obj fields) = none) ∧
    (∀ fields : List (String × Json), getField fields "delayInMinutes" = none →
      decodeFieldWithDefault fields "delayInMinutes" decodeU16 0 = some 0) := by
  refine ⟨?_, ?_, ?_⟩
  · intro k v fields hk
    apply decodeRawDeparture_congr
    intro name hname
    exact getField_cons_ne k v fields name (fun he => hk (he ▸ hname))
  · intro fields name hmem hnone
    exact decodeRawDeparture_missing_required fields name hmem hnone
  · intro fields h
    unfold decodeFieldWithDefault
    rw [h]

/-- C4 witness: the empty object (all declared fields absent) fails to
decode because `transportType` is missing. -/
theorem c4_amended_unknown_ignored_required_present_witness :
    decodeRawDeparture (Json.obj []) = none :=
  c4_amended_unknown_ignored_required_present.2.1 [] "transportType"
    (by simp [unusedRequiredNames]) rfl

end Mvg
